import Mathlib

/-!
# Verification of the harper grammar-checker core

A shallow embedding of the repository's data model and operations
(`harper-core` and `harper-wasm`), together with theorems settling the
specification claims.  Definitions are translated from the Rust source;
components of the repository that are not part of the provided sources
(the tokenizer, the pattern-combinator library, the `Suggestion::apply`
helper and the `VecExt::remove_indices` helper) are modelled from the
specification and are marked as such in their doc comments.
-/

set_option maxRecDepth 100000
set_option maxHeartbeats 4000000

namespace Harper

/-- A half-open `[start, end)` range over the character buffer
(`harper_core::Span`).  The Rust field `end` is a Lean keyword and is
rendered `stop` here. -/
structure Span where
  start : Nat
  stop : Nat
deriving DecidableEq, Inhabited

/-- Word metadata: a record of optional booleans (spec §3).  Undefined
fields mean "unknown"; queries treat unknown as false. -/
structure WordMetadata where
  is_noun : Option Bool := none
  is_verb : Option Bool := none
  is_adjective : Option Bool := none
  is_adverb : Option Bool := none
  is_pronoun : Option Bool := none
  is_conjunction : Option Bool := none
  is_determiner : Option Bool := none
  is_preposition : Option Bool := none
  is_linking_verb : Option Bool := none
  is_common : Option Bool := none
deriving DecidableEq, Inhabited

/-- Token kinds (spec §2/§3): `Word(metadata)`, `Punctuation(char)`,
`Number(value, optional ordinal suffix)`, `Space(width)`, `Newline(count)`,
`Unlintable`, `ParagraphBreak`, `Quote(pair index)`.  The `f64` number
payload is modelled exactly as a rational; the values produced by the
tokenizer in the ranges relevant to the claims are exactly representable
in `f64`, so no rounding behaviour is lost. -/
inductive TokenKind where
  | word (metadata : WordMetadata)
  | punctuation (c : Char)
  | number (value : ℚ) (suffix : Option String)
  | space (width : Nat)
  | newline (count : Nat)
  | unlintable
  | paragraphBreak
  | quote (pair : Option Nat)
deriving DecidableEq, Inhabited

/-- A token: a span plus a kind tag (spec §2). -/
structure Token where
  span : Span
  kind : TokenKind
deriving DecidableEq, Inhabited

/-- Is this token a `Word`? -/
def TokenKind.isWord : TokenKind → Bool
  | .word _ => true
  | _ => false

/-- The payload of a `Number` token, when the token is one
(`TokenKind::number` in the Rust source). -/
def TokenKind.number? : TokenKind → Option (ℚ × Option String)
  | .number v s => some (v, s)
  | _ => none

/-- The metadata of a `Word` token, empty otherwise. -/
def TokenKind.wordMetadata : TokenKind → WordMetadata
  | .word m => m
  | _ => default

/-- The closed set of lint categories (spec §4.6). -/
inductive LintKind where
  | spelling | capitalization | punctuation | readability | style
  | miscellaneous | repetition | enhancement | boundaryError | wordChoice
deriving DecidableEq, Inhabited

/-- A replacement suggestion (`harper_core::linting::Suggestion`). -/
inductive Suggestion where
  | replaceWith (chars : List Char)
  | remove
deriving DecidableEq, Inhabited

/-- A lint diagnostic: `Lint { span, kind, suggestions, message, priority }`
(spec §4.6). -/
structure Lint where
  span : Span
  lint_kind : LintKind
  suggestions : List Suggestion
  message : String
  priority : Nat
deriving DecidableEq, Inhabited

/-- A document: an owned character buffer plus its token vector (spec §3).
The derived indices are recomputed on demand here. -/
structure Document where
  source : List Char
  tokens : List Token
deriving DecidableEq, Inhabited

/-- Iterator over the `Number` tokens of a document
(`Document::iter_numbers`; the Rust document keeps an index of number
positions, which is observationally a filter over the token vector). -/
def Document.iterNumbers (document : Document) : List Token :=
  document.tokens.filter (fun t => t.kind.number?.isSome)

/-- A pattern capability: given a token slice and the source characters,
return the number of leading tokens consumed, 0 meaning no match
(spec §4.5).  Trait objects `Box<dyn Pattern>` are modelled as plain
functions. -/
abbrev PatternF : Type := List Token → List Char → Nat

/-- `Invert::matches` from `src/harper-core/src/patterns/invert.rs`:
if the inner pattern matches a nonzero number of tokens, return 0,
otherwise return 1. -/
def Invert.matches (inner : PatternF) (tokens : List Token) (source : List Char) : Nat :=
  if inner tokens source ≠ 0 then 0 else 1

/-! ## Number spelling (`src/harper-core/src/linting/spelled_numbers.rs`) -/

/-- The literal arms of the `match` inside `spell_out_number`:
`0..=20` and each ten `30, 40, …, 90`. -/
def spellSmall (num : Nat) : Option String :=
  match num with
  | 0 => some "zero"
  | 1 => some "one"
  | 2 => some "two"
  | 3 => some "three"
  | 4 => some "four"
  | 5 => some "five"
  | 6 => some "six"
  | 7 => some "seven"
  | 8 => some "eight"
  | 9 => some "nine"
  | 10 => some "ten"
  | 11 => some "eleven"
  | 12 => some "twelve"
  | 13 => some "thirteen"
  | 14 => some "fourteen"
  | 15 => some "fifteen"
  | 16 => some "sixteen"
  | 17 => some "seventeen"
  | 18 => some "eighteen"
  | 19 => some "nineteen"
  | 20 => some "twenty"
  | 30 => some "thirty"
  | 40 => some "forty"
  | 50 => some "fifty"
  | 60 => some "sixty"
  | 70 => some "seventy"
  | 80 => some "eighty"
  | 90 => some "ninety"
  | _ => none

/-- `10u64.pow((num as f32).log10() as u32)` from the source: the largest
power of ten not exceeding `num`.  The only arguments that reach this
computation satisfy `21 ≤ num ≤ 999` (they survive the `num > 999` guard
and match no literal arm), and on that range the truncated `f32`
logarithm agrees with the exact base-10 logarithm, so the three-way case
split below is an exact translation. -/
def powerOfTenBelow (num : Nat) : Nat :=
  if num ≥ 100 then 100 else if num ≥ 10 then 10 else 1

/-- The recursion of `spell_out_number`, written with an explicit fuel
parameter as a structural termination device.  A `.unwrap()` on an inner
recursive call in the Rust source is modelled by `Option` propagation
(`none` for the panic, which theorem `C6_spell_out_number_total` shows is
unreachable on the function's domain); fuel exhaustion also yields
`none`, and the same theorem shows the fixed fuel of
`spell_out_number` is sufficient everywhere on the domain. -/
def spellOutNumberFuel : Nat → Nat → Option String
  | 0, _ => none
  | fuel + 1, num =>
    if num > 999 then none
    else
      match spellSmall num with
      | some s => some s
      | none =>
        if num % 100 == 0 then
          (spellOutNumberFuel fuel (num / 100)).map (fun s => s ++ " hundred")
        else
          let n := powerOfTenBelow num
          (spellOutNumberFuel fuel (num / n * n)).bind (fun parent =>
            (spellOutNumberFuel fuel (num % n)).map (fun child =>
              parent ++ (if num ≤ 99 then "-" else " ") ++ child))

/-- `spell_out_number`: converts a number to its spelled-out variant,
working for numbers up to 999 and returning `none` beyond.  The recursion
depth of the Rust function is at most three calls on its domain, so a
fuel of 4 loses nothing. -/
def spell_out_number (num : Nat) : Option String :=
  spellOutNumberFuel 4 num

/-- `f64::EPSILON`, the machine epsilon of `f64`, as an exact rational. -/
def f64Epsilon : ℚ := 1 / 2 ^ 52

/-- Rust's saturating cast `f64 as u64` (truncation toward zero, negative
values clamped to 0), on the exact rational model of the value.  For
`q ≥ 0` truncation equals the floor, and for `q < 0` both truncation and
`⌊q⌋.toNat` yield 0, so the two agree everywhere. -/
def ratToU64 (q : ℚ) : Nat := (⌊q⌋).toNat

/-- `f64::abs` on the exact rational model. -/
def ratAbs (q : ℚ) : ℚ := if q < 0 then -q else q

/-- The message of a SpelledNumbers lint. -/
def spelledNumbersMessage : String := "Try to spell out numbers less than ten."

/-- The lint pushed by `SpelledNumbers::lint` for a qualifying number
token.  The `.unwrap()` on `spell_out_number` in the source never fails
here because the guarded value is below ten; it is modelled by `getD`. -/
def SpelledNumbers.makeLint (tok : Token) (value : ℚ) : Lint :=
  { span := tok.span
    lint_kind := .readability
    suggestions := [.replaceWith (((spell_out_number (ratToU64 value)).getD "").toList)]
    message := spelledNumbersMessage
    priority := 63 }

/-- The body of the `for` loop of `SpelledNumbers::lint`: a number token
produces a lint exactly when `(number - number.floor()).abs() < f64::EPSILON
&& number < 10.`. -/
def SpelledNumbers.lintNumberToken (tok : Token) : Option Lint :=
  tok.kind.number?.bind (fun vs =>
    if ratAbs (vs.1 - (⌊vs.1⌋ : ℚ)) < f64Epsilon ∧ vs.1 < 10 then
      some (SpelledNumbers.makeLint tok vs.1)
    else none)

/-- `SpelledNumbers::lint`: collect the lints of all number tokens. -/
def SpelledNumbers.lint (document : Document) : List Lint :=
  document.iterNumbers.filterMap SpelledNumbers.lintNumberToken

/-- The tokenization (spec §4.1) of `"There are 9 pigs."`:
`There`·` `·`are`·` `·`9`·` `·`pigs`·`.`. -/
def docNinePigs : Document :=
  { source := "There are 9 pigs.".toList
    tokens :=
      [⟨⟨0, 5⟩, .word default⟩, ⟨⟨5, 6⟩, .space 1⟩, ⟨⟨6, 9⟩, .word default⟩,
       ⟨⟨9, 10⟩, .space 1⟩, ⟨⟨10, 11⟩, .number 9 none⟩, ⟨⟨11, 12⟩, .space 1⟩,
       ⟨⟨12, 16⟩, .word default⟩, ⟨⟨16, 17⟩, .punctuation '.'⟩] }

/-- The tokenization (spec §4.1) of `"There are 10 pigs."`. -/
def docTenPigs : Document :=
  { source := "There are 10 pigs.".toList
    tokens :=
      [⟨⟨0, 5⟩, .word default⟩, ⟨⟨5, 6⟩, .space 1⟩, ⟨⟨6, 9⟩, .word default⟩,
       ⟨⟨9, 10⟩, .space 1⟩, ⟨⟨10, 12⟩, .number 10 none⟩, ⟨⟨12, 13⟩, .space 1⟩,
       ⟨⟨13, 17⟩, .word default⟩, ⟨⟨17, 18⟩, .punctuation '.'⟩] }

/-! ## Pattern combinators (modelled from spec §4.5) -/

/-- The characters of the source covered by a span
(`Span::get_content` / `get_content_string` in harper-core). -/
def spanContent (span : Span) (source : List Char) : List Char :=
  (source.drop span.start).take (span.stop - span.start)

/-- Modelled from the spec (§4.5): a single-token pattern matching the
first token of the slice against a predicate; such single-token steps
underlie `then_any_word`, `then_noun`, `then_adjective`,
`then_whitespace` and `then_case_separator`. -/
def tokenPred (p : Token → Bool) : PatternF := fun tokens _ =>
  match tokens with
  | [] => 0
  | t :: _ => if p t then 1 else 0

/-- `then_any_word`: any `Word` token. -/
def anyWordPattern : PatternF := tokenPred (fun t => t.kind.isWord)

/-- `then_noun`: a `Word` token known to be a noun (unknown counts as
false, spec §3). -/
def nounPattern : PatternF :=
  tokenPred (fun t => t.kind.isWord && t.kind.wordMetadata.is_noun.getD false)

/-- `then_adjective`: a `Word` token known to be an adjective. -/
def adjectivePattern : PatternF :=
  tokenPred (fun t => t.kind.isWord && t.kind.wordMetadata.is_adjective.getD false)

/-- `then_whitespace`: a `Space` or `Newline` token. -/
def whitespacePattern : PatternF :=
  tokenPred (fun t =>
    match t.kind with
    | .space _ => true
    | .newline _ => true
    | _ => false)

/-- Modelled from the spec (§4.4): the case separator of identifier runs
is `_` or `-` (`then_case_separator`). -/
def caseSeparatorPattern : PatternF :=
  tokenPred (fun t =>
    match t.kind with
    | .punctuation c => c == '_' || c == '-'
    | _ => false)

/-- `then_exact_word(w)`: a `Word` token whose source characters equal
`w`. -/
def exactWordPattern (w : List Char) : PatternF := fun tokens source =>
  match tokens with
  | [] => 0
  | t :: _ => if t.kind.isWord && spanContent t.span source == w then 1 else 0

/-- `then_exact_word_or_lowercase(w)`: a `Word` token whose source
characters equal `w` or its lowercased form. -/
def exactWordOrLowercasePattern (w : List Char) : PatternF := fun tokens source =>
  match tokens with
  | [] => 0
  | t :: _ =>
    if t.kind.isWord &&
        (spanContent t.span source == w ||
          spanContent t.span source == w.map Char.toLower) then 1 else 0

/-- `SequencePattern` (spec §4.5): each sub-pattern must consume the
tokens following the previous one; a sub-pattern returning 0 makes the
whole sequence return 0, otherwise the sum of the sub-lengths is
returned. -/
def seqGo : List PatternF → List Token → List Char → Nat → Nat
  | [], _, _, cursor => cursor
  | p :: ps, tokens, source, cursor =>
    let len := p (tokens.drop cursor) source
    if len = 0 then 0 else seqGo ps tokens source (cursor + len)

/-- A `SequencePattern` over the given ordered sub-patterns. -/
def seqPattern (ps : List PatternF) : PatternF := fun tokens source =>
  seqGo ps tokens source 0

/-- `EitherPattern` (spec §4.5): the first sub-pattern returning nonzero
wins; alternatives are tried in declaration order. -/
def eitherPattern (ps : List PatternF) : PatternF := fun tokens source =>
  match ps.find? (fun p => p tokens source != 0) with
  | some p => p tokens source
  | none => 0

/-- `RepeatingPattern` / `then_one_or_more` (spec §4.5): one or more
greedy repetitions of the inner pattern.  The fuel argument only bounds
the number of iterations; every iteration of the Rust loop consumes at
least one token, so `tokens.length + 1` iterations are never exhausted on
the reachable inputs. -/
def repeatGo (p : PatternF) (source : List Char) : Nat → List Token → Nat
  | 0, _ => 0
  | fuel + 1, tokens =>
    let len := p tokens source
    if len = 0 then 0 else len + repeatGo p source fuel (tokens.drop len)

/-- One-or-more greedy repetitions of `p`. -/
def oneOrMorePattern (p : PatternF) : PatternF := fun tokens source =>
  repeatGo p source (tokens.length + 1) tokens

/-- `then_one_or_more_adjectives`: one or more adjective tokens. -/
def oneOrMoreAdjectivesPattern : PatternF := oneOrMorePattern adjectivePattern

/-- `WordPatternGroup` (spec §4.5): a map from exact lowercase word to its
own pattern.  If the first token is a known word of the map (looked up by
its lowercased source characters), that pattern is tried; otherwise 0. -/
def wordPatternGroup (entries : List (List Char × PatternF)) : PatternF :=
  fun tokens source =>
  match tokens with
  | [] => 0
  | t :: _ =>
    if t.kind.isWord then
      match entries.find? (fun e => (spanContent t.span source).map Char.toLower == e.1) with
      | some e => e.2 tokens source
      | none => 0
    else 0

/-- `PatternExt::find_all_matches` (spec §4.5): scan greedily
left-to-right; at position `i` try the pattern, on a match of length `L`
emit the window `[i, i + L)` and advance by `L`, otherwise advance by 1.
The fuel (`tokens.length + 1`) bounds the number of steps, each of which
advances the position by at least one, so it is never exhausted. -/
def findAllGo (p : PatternF) (tokens : List Token) (source : List Char) :
    Nat → Nat → List Span
  | 0, _ => []
  | fuel + 1, i =>
    if i ≥ tokens.length then []
    else
      let len := p (tokens.drop i) source
      if len = 0 then findAllGo p tokens source fuel (i + 1)
      else ⟨i, i + len⟩ :: findAllGo p tokens source fuel (i + len)

/-- All non-overlapping match windows of `p` over the token vector. -/
def findAllMatches (p : PatternF) (tokens : List Token) (source : List Char) : List Span :=
  findAllGo p tokens source (tokens.length + 1) 0

/-! ## The UseGenitive linter
(`src/harper-core/src/linting/use_genitive.rs`) -/

/-- The environment the genitive case should be used in: whitespace, then
either (one or more adjectives, whitespace, a noun) or just a noun. -/
def useGenitiveEnvironment : PatternF :=
  seqPattern [whitespacePattern,
    eitherPattern [
      seqPattern [oneOrMoreAdjectivesPattern, whitespacePattern, nounPattern],
      seqPattern [nounPattern]]]

/-- The trigger words of `UseGenitive`: `there` and `they're`. -/
def useGenitiveTriggerWords : List (List Char) :=
  [['t', 'h', 'e', 'r', 'e'], ['t', 'h', 'e', 'y', '\'', 'r', 'e']]

/-- The full pattern of `UseGenitive`: an inverted prelude (a preceding
`Is`/`is`, `Were`/`were` or adjective blocks the match), whitespace, then
the trigger-word group, each trigger followed by the environment. -/
def useGenitivePattern : PatternF :=
  seqPattern [
    Invert.matches (eitherPattern [
      seqPattern [exactWordOrLowercasePattern ['I', 's']],
      seqPattern [exactWordOrLowercasePattern ['W', 'e', 'r', 'e']],
      seqPattern [adjectivePattern]]),
    whitespacePattern,
    wordPatternGroup (useGenitiveTriggerWords.map (fun w =>
      (w, seqPattern [exactWordPattern w, useGenitiveEnvironment])))]

/-- `UseGenitive::match_to_lint`: the lint spans the third matched token
(the trigger word) and suggests `their`. -/
def UseGenitive.matchToLint (matchedTokens : List Token) (_source : List Char) : Lint :=
  { span := (matchedTokens.getD 2 default).span
    lint_kind := .miscellaneous
    suggestions := [.replaceWith ['t', 'h', 'e', 'i', 'r']]
    message := "Use the genitive case."
    priority := 31 }

/-- Modelled from the spec (§2, §4.5): a pattern-driven linter maps each
window found by `find_all_matches` through its `match_to_lint`
conversion. -/
def runPatternLinter (pattern : PatternF)
    (toLint : List Token → List Char → Lint) (document : Document) : List Lint :=
  (findAllMatches pattern document.tokens document.source).map (fun w =>
    toLint ((document.tokens.drop w.start).take (w.stop - w.start)) document.source)

/-- `UseGenitive` as a linter. -/
def UseGenitive.lint (document : Document) : List Lint :=
  runPatternLinter useGenitivePattern UseGenitive.matchToLint document

/-- Metadata of a word the curated dictionary records as an adjective. -/
def adjectiveMetadata : WordMetadata := { is_adjective := some true }

/-- Metadata of a word the curated dictionary records as a noun. -/
def nounMetadata : WordMetadata := { is_noun := some true }

/-- The tokenization (spec §4.1) of `"What are there big problems?"`,
with the part-of-speech tags the curated dictionary gives the words that
matter here: `big` is an adjective, `problems` a noun, and none of
`What`, `are`, `there` is an adjective. -/
def docBigProblems : Document :=
  { source := "What are there big problems?".toList
    tokens :=
      [⟨⟨0, 4⟩, .word default⟩, ⟨⟨4, 5⟩, .space 1⟩, ⟨⟨5, 8⟩, .word default⟩,
       ⟨⟨8, 9⟩, .space 1⟩, ⟨⟨9, 14⟩, .word default⟩, ⟨⟨14, 15⟩, .space 1⟩,
       ⟨⟨15, 18⟩, .word adjectiveMetadata⟩, ⟨⟨18, 19⟩, .space 1⟩,
       ⟨⟨19, 27⟩, .word nounMetadata⟩, ⟨⟨27, 28⟩, .punctuation '?'⟩] }

/-- The tokenization (spec §4.1) of `"Were there cats at her house?"`,
with `cats` and `house` tagged as nouns. -/
def docWereThereCats : Document :=
  { source := "Were there cats at her house?".toList
    tokens :=
      [⟨⟨0, 4⟩, .word default⟩, ⟨⟨4, 5⟩, .space 1⟩, ⟨⟨5, 10⟩, .word default⟩,
       ⟨⟨10, 11⟩, .space 1⟩, ⟨⟨11, 15⟩, .word nounMetadata⟩, ⟨⟨15, 16⟩, .space 1⟩,
       ⟨⟨16, 18⟩, .word default⟩, ⟨⟨18, 19⟩, .space 1⟩, ⟨⟨19, 22⟩, .word default⟩,
       ⟨⟨22, 23⟩, .space 1⟩, ⟨⟨23, 28⟩, .word nounMetadata⟩, ⟨⟨28, 29⟩, .punctuation '?'⟩] }

/-! ## The CollapseIdentifiers adapter
(`src/harper-core/src/parsers/collapse_identifiers.rs`) -/

/-- The thread-local `WORD_OR_NUMBER` pattern: any word, then one or more
(case separator, word) pairs. -/
def wordOrNumberPattern : PatternF :=
  seqPattern [anyWordPattern,
    oneOrMorePattern (seqPattern [caseSeparatorPattern, anyWordPattern])]

/-- Modelled from its use in the repository (`VecExt::remove_indices` is
not among the provided sources): remove the elements whose 0-based index
is listed; an out-of-range index has no effect, which is what the
repository's own `two_collapses` test observes (17 tokens, removal list
containing 17, 12 tokens out).  Removal is by membership, so the
`sorted().unique()` normalization the caller applies is semantically
transparent here. -/
def removeIndicesGo {α : Type} (indices : List Nat) : Nat → List α → List α
  | _, [] => []
  | i, x :: xs =>
    if i ∈ indices then removeIndicesGo indices (i + 1) xs
    else x :: removeIndicesGo indices (i + 1) xs

/-- `VecExt::remove_indices`. -/
def remove_indices {α : Type} (l : List α) (indices : List Nat) : List α :=
  removeIndicesGo indices 0 l

/-- One entry of the `replacements` vector built by
`CollapseIdentifiers::parse`: the token-window bounds `(s.start, s.end)`,
the collapsed token, and the candidate identifier string. -/
structure Replacement where
  start : Nat
  stop : Nat
  token : Token
  content : List Char

/-- The `replacements` vector of `CollapseIdentifiers::parse`: for each
`WORD_OR_NUMBER` window, the collapsed `Word` token spanning the window's
characters together with its candidate string, filtered by dictionary
membership (`Dictionary::contains_word_str`, modelled as the
dictionary's membership test on character strings). -/
def collapseReplacements (dict : List Char → Bool) (tokens : List Token)
    (source : List Char) : List Replacement :=
  ((findAllMatches wordOrNumberPattern tokens source).map (fun s =>
    let startTok := tokens.getD s.start default
    let endTok := tokens.getD (s.stop - 1) default
    let charSpan : Span := ⟨startTok.span.start, endTok.span.stop⟩
    Replacement.mk s.start s.stop (Token.mk charSpan (.word default))
      (spanContent charSpan source))).filter
    (fun r => dict r.content)

/-- `CollapseIdentifiers::parse`: run the inner parser, build the kept
replacements, then overwrite each kept window's first token with the
collapsed token and remove the token indices `s + 1 ..= e` (the source's
`(s + 1..=e)` — note the inclusive upper end, one past the window).  The
inner parser is modelled as a function. -/
def collapseIdentifiersParse (dict : List Char → Bool)
    (inner : List Char → List Token) (source : List Char) : List Token :=
  let tokens := inner source
  let replacements := collapseReplacements dict tokens source
  let removalIndexes :=
    (replacements.map (fun r => List.range' (r.start + 1) (r.stop - r.start))).flatten
  let newTokens := replacements.foldl (fun ts r => ts.set r.start r.token) tokens
  remove_indices newTokens removalIndexes

/-- A dictionary containing exactly the identifier
`separated_identifier` (the base dictionary's words never form a
separator-joined candidate here, so only this entry matters to the
collapse decision). -/
def identifierDict : List Char → Bool := fun w => w == "separated_identifier".toList

/-- The inner tokenization (spec §4.1) of
`"This is a separated_identifier, wow!"`:
`This`·` `·`is`·` `·`a`·` `·`separated`·`_`·`identifier`·`,`·` `·`wow`·`!`. -/
def collapseExampleTokens : List Token :=
  [⟨⟨0, 4⟩, .word default⟩, ⟨⟨4, 5⟩, .space 1⟩, ⟨⟨5, 7⟩, .word default⟩,
   ⟨⟨7, 8⟩, .space 1⟩, ⟨⟨8, 9⟩, .word default⟩, ⟨⟨9, 10⟩, .space 1⟩,
   ⟨⟨10, 19⟩, .word default⟩, ⟨⟨19, 20⟩, .punctuation '_'⟩,
   ⟨⟨20, 30⟩, .word default⟩, ⟨⟨30, 31⟩, .punctuation ','⟩,
   ⟨⟨31, 32⟩, .space 1⟩, ⟨⟨32, 35⟩, .word default⟩, ⟨⟨35, 36⟩, .punctuation '!'⟩]

/-- The character buffer of the collapse example. -/
def collapseExampleSource : List Char := "This is a separated_identifier, wow!".toList

/-! ## apply_suggestion (`src/harper-wasm/src/lib.rs`) -/

/-- Modelled from the spec: `harper_core::linting::Suggestion::apply` is
not among the provided sources.  In range, `ReplaceWith` splices the
replacement characters over the span and `Remove` deletes the span's
characters (spec §6 and §8, properties 6–7 and the round-trip); called
with a span outside the buffer it fails and "the input buffer is not
mutated" (spec §7), which for the in-place
`apply(&self, span, source: &mut Vec<char>)` means the buffer comes back
unchanged. -/
def Suggestion.apply (suggestion : Suggestion) (span : Span) (source : List Char) :
    List Char :=
  if span.stop ≤ source.length ∧ span.start ≤ span.stop then
    match suggestion with
    | .replaceWith chars => source.take span.start ++ chars ++ source.drop span.stop
    | .remove => source.take span.start ++ source.drop span.stop
  else source

/-- `apply_suggestion` from `src/harper-wasm/src/lib.rs`: collect the
text's characters, apply the suggestion in place, and return the
resulting buffer wrapped in `Ok` — the `Result` return type
notwithstanding, the function body has no error path. -/
def apply_suggestion (text : List Char) (span : Span) (suggestion : Suggestion) :
    Except String (List Char) :=
  let source := text
  Except.ok (suggestion.apply span source)

/-! ## LintGroup (`src/harper-core/src/linting/lint_group.rs`) -/

/-- The configuration record generated by `create_lint_group_config!`:
one optional boolean per rule plus `spell_check`.  `None` means "use the
built-in default".  (Rust's `Default` gives all `None`, matching the
field defaults here.) -/
structure LintGroupConfig where
  spelled_numbers : Option Bool := none
  an_a : Option Bool := none
  sentence_capitalization : Option Bool := none
  unclosed_quotes : Option Bool := none
  wrong_quotes : Option Bool := none
  long_sentences : Option Bool := none
  repeated_words : Option Bool := none
  spaces : Option Bool := none
  matcher : Option Bool := none
  correct_number_suffix : Option Bool := none
  number_suffix_capitalization : Option Bool := none
  multiple_sequential_pronouns : Option Bool := none
  linking_verbs : Option Bool := none
  avoid_curses : Option Bool := none
  terminating_conjunctions : Option Bool := none
  ellipsis_length : Option Bool := none
  dot_initialisms : Option Bool := none
  boring_words : Option Bool := none
  use_genitive : Option Bool := none
  that_which : Option Bool := none
  capitalize_personal_pronouns : Option Bool := none
  spell_check : Option Bool := none
deriving DecidableEq, Inhabited

/-- `LintGroupConfig::none()`: every per-rule flag and `spell_check` set
to `Some(false)`. -/
def LintGroupConfig.none : LintGroupConfig where
  spelled_numbers := some false
  an_a := some false
  sentence_capitalization := some false
  unclosed_quotes := some false
  wrong_quotes := some false
  long_sentences := some false
  repeated_words := some false
  spaces := some false
  matcher := some false
  correct_number_suffix := some false
  number_suffix_capitalization := some false
  multiple_sequential_pronouns := some false
  linking_verbs := some false
  avoid_curses := some false
  terminating_conjunctions := some false
  ellipsis_length := some false
  dot_initialisms := some false
  boring_words := some false
  use_genitive := some false
  that_which := some false
  capitalize_personal_pronouns := some false
  spell_check := some false

/-- `LintGroupConfig::fill_default_values()`: replace each `None` entry
with the rule's default from the `create_lint_group_config!` invocation
and leave `Some` entries unchanged — `if self.x.is_none() { self.x =
Some(default) }`, written functionally as `some (x.getD default)`.  The
spell checker's default is `true`. -/
def LintGroupConfig.fill_default_values (c : LintGroupConfig) : LintGroupConfig where
  spelled_numbers := some (c.spelled_numbers.getD false)
  an_a := some (c.an_a.getD true)
  sentence_capitalization := some (c.sentence_capitalization.getD false)
  unclosed_quotes := some (c.unclosed_quotes.getD true)
  wrong_quotes := some (c.wrong_quotes.getD false)
  long_sentences := some (c.long_sentences.getD true)
  repeated_words := some (c.repeated_words.getD true)
  spaces := some (c.spaces.getD false)
  matcher := some (c.matcher.getD true)
  correct_number_suffix := some (c.correct_number_suffix.getD true)
  number_suffix_capitalization := some (c.number_suffix_capitalization.getD true)
  multiple_sequential_pronouns := some (c.multiple_sequential_pronouns.getD true)
  linking_verbs := some (c.linking_verbs.getD false)
  avoid_curses := some (c.avoid_curses.getD true)
  terminating_conjunctions := some (c.terminating_conjunctions.getD true)
  ellipsis_length := some (c.ellipsis_length.getD true)
  dot_initialisms := some (c.dot_initialisms.getD true)
  boring_words := some (c.boring_words.getD false)
  use_genitive := some (c.use_genitive.getD false)
  that_which := some (c.that_which.getD true)
  capitalize_personal_pronouns := some (c.capitalize_personal_pronouns.getD true)
  spell_check := some (c.spell_check.getD true)

/-- A stateful linter: the `&mut self` receiver of `Linter::lint` is
modelled by an explicit state threaded through each call.  The
behaviours of the individual rules are abstracted here — the claims
about `LintGroup` hold for every behaviour. -/
structure StatefulLinter : Type 1 where
  State : Type
  state : State
  lintF : State → Document → List Lint × State

/-- One `self.linter.lint(document)` call: the lints plus the linter with
its updated state. -/
def StatefulLinter.runLinter (l : StatefulLinter) (document : Document) :
    List Lint × StatefulLinter :=
  ((l.lintF l.state document).1, ⟨l.State, (l.lintF l.state document).2, l.lintF⟩)

/-- The `LintGroup` struct generated by the macro: one linter field per
rule, the spell checker, and the public `config` field. -/
structure LintGroup : Type 1 where
  spelled_numbers : StatefulLinter
  an_a : StatefulLinter
  sentence_capitalization : StatefulLinter
  unclosed_quotes : StatefulLinter
  wrong_quotes : StatefulLinter
  long_sentences : StatefulLinter
  repeated_words : StatefulLinter
  spaces : StatefulLinter
  matcher : StatefulLinter
  correct_number_suffix : StatefulLinter
  number_suffix_capitalization : StatefulLinter
  multiple_sequential_pronouns : StatefulLinter
  linking_verbs : StatefulLinter
  avoid_curses : StatefulLinter
  terminating_conjunctions : StatefulLinter
  ellipsis_length : StatefulLinter
  dot_initialisms : StatefulLinter
  boring_words : StatefulLinter
  use_genitive : StatefulLinter
  that_which : StatefulLinter
  capitalize_personal_pronouns : StatefulLinter
  spell_check : StatefulLinter
  config : LintGroupConfig

/-- `if config.x.unwrap() { lints.append(&mut self.x.lint(document)) }`:
run the linter when its filled flag is set.  After
`fill_default_values` every entry is `Some`, so the `unwrap` never
panics; it is modelled by `getD false`. -/
def runIf (enabled : Option Bool) (l : StatefulLinter) (document : Document) :
    List Lint × StatefulLinter :=
  if enabled.getD false then l.runLinter document else ([], l)

/-- `LintGroup::lint` (`impl Linter for LintGroup`): clone the stored
config, fill the defaults on the clone, run every enabled rule in macro
order and concatenate their lints.  The returned group carries the
linters' updated states and the original `config` field, which the body
only ever reads (`self.config.clone()`). -/
def LintGroup.lint (g : LintGroup) (document : Document) : List Lint × LintGroup :=
  let config := g.config.fill_default_values
  let r1 := runIf config.spelled_numbers g.spelled_numbers document
  let r2 := runIf config.an_a g.an_a document
  let r3 := runIf config.sentence_capitalization g.sentence_capitalization document
  let r4 := runIf config.unclosed_quotes g.unclosed_quotes document
  let r5 := runIf config.wrong_quotes g.wrong_quotes document
  let r6 := runIf config.long_sentences g.long_sentences document
  let r7 := runIf config.repeated_words g.repeated_words document
  let r8 := runIf config.spaces g.spaces document
  let r9 := runIf config.matcher g.matcher document
  let r10 := runIf config.correct_number_suffix g.correct_number_suffix document
  let r11 := runIf config.number_suffix_capitalization g.number_suffix_capitalization document
  let r12 := runIf config.multiple_sequential_pronouns g.multiple_sequential_pronouns document
  let r13 := runIf config.linking_verbs g.linking_verbs document
  let r14 := runIf config.avoid_curses g.avoid_curses document
  let r15 := runIf config.terminating_conjunctions g.terminating_conjunctions document
  let r16 := runIf config.ellipsis_length g.ellipsis_length document
  let r17 := runIf config.dot_initialisms g.dot_initialisms document
  let r18 := runIf config.boring_words g.boring_words document
  let r19 := runIf config.use_genitive g.use_genitive document
  let r20 := runIf config.that_which g.that_which document
  let r21 := runIf config.capitalize_personal_pronouns g.capitalize_personal_pronouns document
  let r22 := runIf config.spell_check g.spell_check document
  (r1.1 ++ r2.1 ++ r3.1 ++ r4.1 ++ r5.1 ++ r6.1 ++ r7.1 ++ r8.1 ++ r9.1 ++ r10.1 ++
      r11.1 ++ r12.1 ++ r13.1 ++ r14.1 ++ r15.1 ++ r16.1 ++ r17.1 ++ r18.1 ++ r19.1 ++
      r20.1 ++ r21.1 ++ r22.1,
   { spelled_numbers := r1.2
     an_a := r2.2
     sentence_capitalization := r3.2
     unclosed_quotes := r4.2
     wrong_quotes := r5.2
     long_sentences := r6.2
     repeated_words := r7.2
     spaces := r8.2
     matcher := r9.2
     correct_number_suffix := r10.2
     number_suffix_capitalization := r11.2
     multiple_sequential_pronouns := r12.2
     linking_verbs := r13.2
     avoid_curses := r14.2
     terminating_conjunctions := r15.2
     ellipsis_length := r16.2
     dot_initialisms := r17.2
     boring_words := r18.2
     use_genitive := r19.2
     that_which := r20.2
     capitalize_personal_pronouns := r21.2
     spell_check := r22.2
     config := g.config })

/-- A linter behaviour that always reports one lint; used to witness
that the `none()` config suppresses even lint-producing rules. -/
def noisyLinter : StatefulLinter :=
  ⟨Unit, (), fun s _ =>
    ([{ span := ⟨0, 0⟩, lint_kind := .style, suggestions := [],
        message := "noise", priority := 0 }], s)⟩

/-- A group of noisy linters configured with `LintGroupConfig::none()`. -/
def noneConfigGroup : LintGroup where
  spelled_numbers := noisyLinter
  an_a := noisyLinter
  sentence_capitalization := noisyLinter
  unclosed_quotes := noisyLinter
  wrong_quotes := noisyLinter
  long_sentences := noisyLinter
  repeated_words := noisyLinter
  spaces := noisyLinter
  matcher := noisyLinter
  correct_number_suffix := noisyLinter
  number_suffix_capitalization := noisyLinter
  multiple_sequential_pronouns := noisyLinter
  linking_verbs := noisyLinter
  avoid_curses := noisyLinter
  terminating_conjunctions := noisyLinter
  ellipsis_length := noisyLinter
  dot_initialisms := noisyLinter
  boring_words := noisyLinter
  use_genitive := noisyLinter
  that_which := noisyLinter
  capitalize_personal_pronouns := noisyLinter
  spell_check := noisyLinter
  config := LintGroupConfig.none

/-! ## clean_mdx_content (`src/harper-wasm/src/lib.rs`) -/

/-- One match of a regex `replace_all` pass.  The regex engine is the
external `regex` crate, not code of this repository; each pass's set of
matches is therefore supplied as an oracle: the match's start position
(in characters, absolute within the string of its pass), its matched
text, its first capture group (empty for regexes without one), and — for
the HTML-tag pass only — the nested matches of the attribute regex inside
the tag's attribute text (`subs`). -/
inductive RegexMatch : Type where
  | mk (start : Nat) (matched : List Char) (cap : List Char) (subs : List RegexMatch)

/-- The match's start position. -/
def RegexMatch.start : RegexMatch → Nat
  | .mk s _ _ _ => s

/-- The matched text (`caps[0]`). -/
def RegexMatch.matched : RegexMatch → List Char
  | .mk _ m _ _ => m

/-- The first capture group (`caps[1]`). -/
def RegexMatch.cap : RegexMatch → List Char
  | .mk _ _ c _ => c

/-- The nested attribute matches (HTML-tag pass only). -/
def RegexMatch.subs : RegexMatch → List RegexMatch
  | .mk _ _ _ l => l

/-- `Regex::replace_all`: splice `repl m` over each match, keeping
everything in between.  `offset` is the absolute position of the current
residual string's first character. -/
def replaceAll (repl : RegexMatch → List Char) :
    List Char → Nat → List RegexMatch → List Char
  | s, _, [] => s
  | s, offset, m :: ms =>
    s.take (m.start - offset) ++ repl m ++
      replaceAll repl (s.drop (m.start - offset + m.matched.length))
        (m.start + m.matched.length) ms

/-- The match list is ascending, within bounds and non-overlapping for
the given string — what the regex engine guarantees of the matches it
hands to `replace_all`. -/
def fits : List Char → Nat → List RegexMatch → Bool
  | _, _, [] => true
  | s, offset, m :: ms =>
    decide (offset ≤ m.start) &&
      decide (m.start - offset + m.matched.length ≤ s.length) &&
      fits (s.drop (m.start - offset + m.matched.length)) (m.start + m.matched.length) ms

/-- Rust `char::len_utf8`; `str::len` (used by `caps[0].len()` etc.) sums
these byte lengths. -/
def charUtf8Size (c : Char) : Nat :=
  if c.toNat < 128 then 1
  else if c.toNat < 2048 then 2
  else if c.toNat < 65536 then 3
  else 4

/-- `str::len`: the UTF-8 byte length of a string. -/
def byteLen (s : List Char) : Nat := (s.map charUtf8Size).sum

/-- The UTF-16 code-unit count of a character: 1 in the Basic
Multilingual Plane, 2 beyond it (a surrogate pair). -/
def charUtf16Size (c : Char) : Nat := if c.toNat < 65536 then 1 else 2

/-- `str::encode_utf16().count()`. -/
def utf16Len (s : List Char) : Nat := (s.map charUtf16Size).sum

/-- `" ".repeat(n)`. -/
def spaces (n : Nat) : List Char := List.replicate n ' '

/-- Every character of the string is ASCII. -/
def allAscii (s : List Char) : Bool := s.all (fun c => decide (c.toNat < 128))

/-- Step 1, Markdown image tags `![alt](url)`: two spaces, the alt text,
then `caps[0].len() - alt_text.len() - 2` spaces (byte lengths). -/
def imageTagRepl (m : RegexMatch) : List Char :=
  spaces 2 ++ m.cap ++ spaces (byteLen m.matched - byteLen m.cap - 2)

/-- Step 2, Markdown links `[text](url)`: one space, the link text, then
`caps[0].len() - link_text.len() - 1` spaces. -/
def linkTagRepl (m : RegexMatch) : List Char :=
  spaces 1 ++ m.cap ++ spaces (byteLen m.matched - byteLen m.cap - 1)

/-- Step 3, fenced code blocks: blanked to the match's byte length. -/
def codeBlockRepl (m : RegexMatch) : List Char := spaces (byteLen m.matched)

/-- The attribute slice `caps[2]` of an HTML-tag match
`<(/?[\w-]+)([^>]*)>`: everything after `<` and the tag name, without the
closing `>`. -/
def tagAttributes (m : RegexMatch) : List Char :=
  (m.matched.drop (m.cap.length + 1)).dropLast

/-- Step 4's inner pass over the attributes, `name="value"`: the name and
`=` blanked (`attr_caps[0].len() - attr_caps[1].len() - 2` spaces), the
quoted value preserved. -/
def attrRepl (a : RegexMatch) : List Char :=
  spaces (byteLen a.matched - byteLen a.cap - 2) ++ '"' :: a.cap ++ ['"']

/-- Step 4, HTML tags: the tag name blanked (plus one space for the `<`),
the attributes cleaned by the inner pass, and one trailing space for the
`>`. -/
def tagRepl (m : RegexMatch) : List Char :=
  spaces (byteLen m.cap + 1) ++ replaceAll attrRepl (tagAttributes m) 0 m.subs ++ spaces 1

/-- Step 5, URLs: blanked to the match's byte length. -/
def urlRepl (m : RegexMatch) : List Char := spaces (byteLen m.matched)

/-- Step 6, email addresses: blanked to the match's byte length. -/
def emailRepl (m : RegexMatch) : List Char := spaces (byteLen m.matched)

/-- Step 7, inline code: blanked only when the content is short
(`≤ 50` bytes) and single-line; otherwise the match is left unchanged. -/
def inlineCodeRepl (m : RegexMatch) : List Char :=
  if byteLen m.cap ≤ 50 && !m.cap.contains '\n' then spaces (byteLen m.matched)
  else m.matched

/-- Step 8, emoji: blanked to the match's **UTF-16** length
(`caps[0].encode_utf16().count()` spaces). -/
def emojiRepl (m : RegexMatch) : List Char := spaces (utf16Len m.matched)

/-- Step 9, runs of two or more dashes: blanked to the match's byte
length. -/
def dashRepl (m : RegexMatch) : List Char := spaces (byteLen m.matched)

/-- Step 1 of `clean_mdx_content`. -/
def cleanStep1 (s : List Char) (o : List RegexMatch) : List Char :=
  replaceAll imageTagRepl s 0 o

/-- Step 2 of `clean_mdx_content`. -/
def cleanStep2 (s : List Char) (o : List RegexMatch) : List Char :=
  replaceAll linkTagRepl s 0 o

/-- Step 3 of `clean_mdx_content`. -/
def cleanStep3 (s : List Char) (o : List RegexMatch) : List Char :=
  replaceAll codeBlockRepl s 0 o

/-- Step 4 of `clean_mdx_content`. -/
def cleanStep4 (s : List Char) (o : List RegexMatch) : List Char :=
  replaceAll tagRepl s 0 o

/-- Step 5 of `clean_mdx_content`. -/
def cleanStep5 (s : List Char) (o : List RegexMatch) : List Char :=
  replaceAll urlRepl s 0 o

/-- Step 6 of `clean_mdx_content`. -/
def cleanStep6 (s : List Char) (o : List RegexMatch) : List Char :=
  replaceAll emailRepl s 0 o

/-- Step 7 of `clean_mdx_content`. -/
def cleanStep7 (s : List Char) (o : List RegexMatch) : List Char :=
  replaceAll inlineCodeRepl s 0 o

/-- Step 8 of `clean_mdx_content`. -/
def cleanStep8 (s : List Char) (o : List RegexMatch) : List Char :=
  replaceAll emojiRepl s 0 o

/-- Step 9 of `clean_mdx_content`. -/
def cleanStep9 (s : List Char) (o : List RegexMatch) : List Char :=
  replaceAll dashRepl s 0 o

/-- `clean_mdx_content`: the nine regex passes in source order, each
pass's match set supplied as an oracle (`oᵢ` must be a valid match set of
regex `i` over the intermediate string entering step `i`). -/
def clean_mdx_content (mdx : List Char)
    (o1 o2 o3 o4 o5 o6 o7 o8 o9 : List RegexMatch) : List Char :=
  cleanStep9 (cleanStep8 (cleanStep7 (cleanStep6 (cleanStep5 (cleanStep4 (cleanStep3
    (cleanStep2 (cleanStep1 mdx o1) o2) o3) o4) o5) o6) o7) o8) o9

/-- A valid all-ASCII oracle for one pass: the matches fit the string,
their text and captures are ASCII, and each capture is at least
`capSlack` characters shorter than its match (true of the regex shapes:
an image match contains `![`, `]`, `(`, `)` beyond the alt text, a link
`[`, `]`, `(`, `)`, a tag `<` and `>`, an attribute `="` and `"`). -/
def oracleOK (s : List Char) (ms : List RegexMatch) (capSlack : Nat) : Prop :=
  fits s 0 ms = true ∧
    ∀ m ∈ ms, allAscii m.matched = true ∧ allAscii m.cap = true ∧
      m.cap.length + capSlack ≤ m.matched.length

/-- A valid all-ASCII oracle for the HTML-tag pass, including each tag's
nested attribute matches over its attribute slice. -/
def tagOracleOK (s : List Char) (ms : List RegexMatch) : Prop :=
  oracleOK s ms 2 ∧ ∀ m ∈ ms, oracleOK (tagAttributes m) m.subs 2

instance oracleOKDecidable (s : List Char) (ms : List RegexMatch) (k : Nat) :
    Decidable (oracleOK s ms k) := by
  unfold oracleOK
  exact inferInstance

instance tagOracleOKDecidable (s : List Char) (ms : List RegexMatch) :
    Decidable (tagOracleOK s ms) := by
  unfold tagOracleOK
  exact inferInstance

/-! ## Theorems -/

theorem spelledNumbers_lintNumberToken_span (t : Token) (lint : Lint)
    (h : SpelledNumbers.lintNumberToken t = some lint) : lint.span = t.span := by
  unfold SpelledNumbers.lintNumberToken at h
  rcases hk : t.kind.number? with _ | ⟨value, suffix⟩ <;> rw [hk] at h
  · exact absurd h (by simp)
  · simp only [Option.some_bind] at h
    split at h
    · cases h
      rfl
    · exact absurd h (by simp)

theorem filterMap_filter_key_of_not_mem {α β γ : Type} [DecidableEq γ]
    (f : α → Option β) (key : α → γ) (keyB : β → γ)
    (hf : ∀ a b, f a = some b → keyB b = key a)
    (l : List α) (c : γ) (h : ∀ a ∈ l, key a ≠ c) :
    (l.filterMap f).filter (fun b => decide (keyB b = c)) = [] := by
  rw [List.filter_eq_nil_iff]
  intro b hb
  obtain ⟨a, ha, hfa⟩ := List.mem_filterMap.mp hb
  simp [hf a b hfa, h a ha]

/-- Filtering the output of a `filterMap` by a key that is injectively
inherited from the inputs isolates the contribution of a single input. -/
theorem filterMap_filter_key {α β γ : Type} [DecidableEq γ]
    (f : α → Option β) (key : α → γ) (keyB : β → γ)
    (hf : ∀ a b, f a = some b → keyB b = key a)
    (l : List α) (x : α) (hx : x ∈ l)
    (hpw : l.Pairwise (fun a b => key a ≠ key b)) :
    (l.filterMap f).filter (fun b => decide (keyB b = key x)) = (f x).toList := by
  induction l with
  | nil => cases hx
  | cons a l ih =>
    rw [List.pairwise_cons] at hpw
    rcases List.mem_cons.mp hx with rfl | hx'
    · rw [List.filterMap_cons]
      cases hfa : f x with
      | none =>
        exact filterMap_filter_key_of_not_mem f key keyB hf l (key x)
          (fun a' ha' => (hpw.1 a' ha').symm)
      | some b =>
        show (b :: List.filterMap f l).filter (fun y => decide (keyB y = key x)) = [b]
        rw [List.filter_cons, if_pos (by simp [hf x b hfa]),
          filterMap_filter_key_of_not_mem f key keyB hf l (key x)
            (fun a' ha' => (hpw.1 a' ha').symm)]
    · have hne : key a ≠ key x := hpw.1 x hx'
      rw [List.filterMap_cons]
      cases hfa : f a with
      | none => exact ih hx' hpw.2
      | some b =>
        show (b :: List.filterMap f l).filter (fun y => decide (keyB y = key x)) = (f x).toList
        rw [List.filter_cons, if_neg (by simp [hf a b hfa, hne])]
        exact ih hx' hpw.2

theorem ratToU64_natCast (k : ℕ) : ratToU64 (k : ℚ) = k := by
  rw [ratToU64, Int.floor_natCast, Int.toNat_natCast]

theorem f64Epsilon_pos : 0 < f64Epsilon := by norm_num [f64Epsilon]

/-- On a number token carrying (the exact image of) a natural number,
the loop body of `SpelledNumbers::lint` fires exactly when the value is
below ten. -/
theorem spelledNumbers_lintNumberToken_natCast (tok : Token) (k : ℕ) (suffix : Option String)
    (hk : tok.kind = .number (k : ℚ) suffix) :
    SpelledNumbers.lintNumberToken tok =
      if k < 10 then some (SpelledNumbers.makeLint tok (k : ℚ)) else none := by
  have hnum : tok.kind.number? = some ((k : ℚ), suffix) := by rw [hk]; rfl
  unfold SpelledNumbers.lintNumberToken
  rw [hnum]
  simp only [Option.some_bind]
  have habs : ratAbs ((k : ℚ) - (⌊(k : ℚ)⌋ : ℚ)) = 0 := by
    rw [Int.floor_natCast]
    push_cast
    simp [ratAbs]
  by_cases hlt : k < 10
  · rw [if_pos ⟨by rw [habs]; exact f64Epsilon_pos, by exact_mod_cast hlt⟩, if_pos hlt]
  · rw [if_neg ?_, if_neg hlt]
    rintro ⟨-, h10⟩
    exact hlt (by exact_mod_cast h10)

/-- C5: for every document whose number tokens have pairwise distinct
spans (a tokenizer invariant, spec §3), every `Number` token carrying an
integer value strictly below 10 yields exactly one lint, spanning that
token, with a `ReplaceWith` suggestion equal to the number's spelled-out
form; a number token with value 10 or greater yields no lint spanning it.
Concretely, `"There are 9 pigs."` gets exactly the lint suggesting
`"nine"` at the span of `"9"`, and `"There are 10 pigs."` gets no lint. -/
theorem C5_spelled_numbers :
    (∀ (document : Document) (tok : Token) (value : ℚ) (suffix : Option String) (k : ℕ),
      tok ∈ document.iterNumbers →
      tok.kind = .number value suffix →
      document.iterNumbers.Pairwise (fun a b => a.span ≠ b.span) →
      value = (k : ℚ) →
      ((value < 10 →
          (SpelledNumbers.lint document).filter (fun l => decide (l.span = tok.span)) =
            [{ span := tok.span, lint_kind := .readability,
               suggestions := [.replaceWith (((spell_out_number k).getD "").toList)],
               message := spelledNumbersMessage, priority := 63 }]) ∧
        (10 ≤ value →
          (SpelledNumbers.lint document).filter (fun l => decide (l.span = tok.span)) = []))) ∧
    SpelledNumbers.lint docNinePigs =
      [{ span := ⟨10, 11⟩, lint_kind := .readability,
         suggestions := [.replaceWith ['n', 'i', 'n', 'e']],
         message := spelledNumbersMessage, priority := 63 }] ∧
    SpelledNumbers.lint docTenPigs = [] := by
  refine ⟨?_, ?_, ?_⟩
  · intro document tok value suffix k htok hkind hpw hval
    subst hval
    have hfilter := filterMap_filter_key SpelledNumbers.lintNumberToken Token.span Lint.span
      spelledNumbers_lintNumberToken_span document.iterNumbers tok htok hpw
    have hlemma := spelledNumbers_lintNumberToken_natCast tok k suffix hkind
    constructor
    · intro hlt
      have hklt : k < 10 := by exact_mod_cast hlt
      unfold SpelledNumbers.lint
      rw [hfilter, hlemma, if_pos hklt]
      simp [SpelledNumbers.makeLint, ratToU64_natCast]
    · intro hge
      have hkge : ¬k < 10 := by
        intro h
        exact absurd hge (not_le.mpr (by exact_mod_cast h))
      unfold SpelledNumbers.lint
      rw [hfilter, hlemma, if_neg hkge]
      rfl
  · have h9 : docNinePigs.iterNumbers = [⟨⟨10, 11⟩, .number 9 none⟩] := by decide
    have hft : SpelledNumbers.lintNumberToken ⟨⟨10, 11⟩, .number 9 none⟩ =
        some (SpelledNumbers.makeLint ⟨⟨10, 11⟩, .number 9 none⟩ ((9 : ℕ) : ℚ)) := by
      rw [spelledNumbers_lintNumberToken_natCast _ 9 none (by norm_num), if_pos (by norm_num)]
    unfold SpelledNumbers.lint
    rw [h9]
    simp only [List.filterMap_cons, List.filterMap_nil, hft]
    simp only [SpelledNumbers.makeLint, ratToU64_natCast]
    decide
  · have h10 : docTenPigs.iterNumbers = [⟨⟨10, 12⟩, .number 10 none⟩] := by decide
    have hft : SpelledNumbers.lintNumberToken ⟨⟨10, 12⟩, .number 10 none⟩ = none := by
      rw [spelledNumbers_lintNumberToken_natCast _ 10 none (by norm_num), if_neg (by norm_num)]
    unfold SpelledNumbers.lint
    rw [h10]
    simp only [List.filterMap_cons, List.filterMap_nil, hft]

/-- Witness for C5: the general statement applied to the concrete
document `"There are 9 pigs."` and its `9` token. -/
theorem C5_spelled_numbers_witness :
    (SpelledNumbers.lint docNinePigs).filter
        (fun l => decide (l.span = Span.mk 10 11)) =
      [{ span := ⟨10, 11⟩, lint_kind := .readability,
         suggestions := [.replaceWith (((spell_out_number 9).getD "").toList)],
         message := spelledNumbersMessage, priority := 63 }] :=
  ((C5_spelled_numbers.1 docNinePigs ⟨⟨10, 11⟩, .number 9 none⟩ 9 none 9
    (by decide) rfl (by decide) (by norm_num)).1 (by norm_num))

/-- C6: `spell_out_number` is total on `0..1000` and undefined outside:
for every `n ≤ 999` it returns `some` spelling, and for every `n > 999`
it returns `none`. -/
theorem C6_spell_out_number_total :
    (∀ n : Nat, n < 1000 → (spell_out_number n).isSome = true) ∧
    (∀ n : Nat, 999 < n → spell_out_number n = none) := by
  constructor
  · decide
  · intro n hn
    simp only [spell_out_number, spellOutNumberFuel]
    simp [Nat.lt_iff_add_one_le.mp hn, show 999 < n from hn]

/-- Witness for C6 at the concrete inputs 999 and 1000. -/
theorem C6_spell_out_number_total_witness :
    (spell_out_number 999).isSome = true ∧ spell_out_number 1000 = none :=
  ⟨C6_spell_out_number_total.1 999 (by decide),
   C6_spell_out_number_total.2 1000 (by decide)⟩

/-- C7: on its domain, away from the listed literals, `spell_out_number`
follows the compositional rule: a multiple of 100 spells as the spelling
of its hundreds digit followed by `" hundred"`, and otherwise the number
splits at the largest power of ten not exceeding it (the reading of
"largest power-of-ten divisor" forced by the claim's own examples) into
parent and child joined by `' '` when the number is ≥ 100 and by `'-'`
when < 100; in particular `spell_out_number 82 = "eighty-two"` and
`spell_out_number 999 = "nine hundred ninety-nine"`. -/
theorem C7_spell_out_number_compositional :
    (∀ num : Nat, num < 1000 → spellSmall num = none → num % 100 = 0 →
      spell_out_number num = (spell_out_number (num / 100)).map (fun p => p ++ " hundred")) ∧
    (∀ num : Nat, num < 1000 → spellSmall num = none → num % 100 ≠ 0 →
      spell_out_number num =
        (spell_out_number (num / powerOfTenBelow num * powerOfTenBelow num)).bind (fun parent =>
          (spell_out_number (num % powerOfTenBelow num)).map (fun child =>
            parent ++ (if num ≤ 99 then "-" else " ") ++ child))) ∧
    spell_out_number 82 = some "eighty-two" ∧
    spell_out_number 999 = some "nine hundred ninety-nine" := by
  refine ⟨?_, ?_, by decide, by decide⟩
  · decide
  · decide

/-- Witness for C7 at the concrete inputs 300 (hundreds branch) and
82 (split branch). -/
theorem C7_spell_out_number_compositional_witness :
    spell_out_number 300 = (spell_out_number 3).map (fun p => p ++ " hundred") ∧
    spell_out_number 82 =
      (spell_out_number (82 / powerOfTenBelow 82 * powerOfTenBelow 82)).bind (fun parent =>
        (spell_out_number (82 % powerOfTenBelow 82)).map (fun child =>
          parent ++ (if 82 ≤ 99 then "-" else " ") ++ child)) :=
  ⟨C7_spell_out_number_compositional.1 300 (by decide) (by decide) (by decide),
   C7_spell_out_number_compositional.2.1 82 (by decide) (by decide) (by decide)⟩

/-! ## The SpelledNumbers linter
(`src/harper-core/src/linting/spelled_numbers.rs`) -/

/-- C9: for every token slice (including the empty slice) and every
source, `Invert::matches` returns 1 if the inner pattern's `matches`
returns 0, and returns 0 otherwise. -/
theorem C9_invert_matches (inner : PatternF) (tokens : List Token) (source : List Char) :
    Invert.matches inner tokens source =
      if inner tokens source = 0 then 1 else 0 := by
  simp only [Invert.matches, ne_eq, ite_not]

theorem removeIndicesGo_cons {α : Type} (indices : List Nat) (i : Nat) (x : α) (xs : List α) :
    removeIndicesGo indices i (x :: xs) =
      if i ∈ indices then removeIndicesGo indices (i + 1) xs
      else x :: removeIndicesGo indices (i + 1) xs := rfl

theorem removeIndicesGo_nil_indices {α : Type} (i : Nat) (l : List α) :
    removeIndicesGo ([] : List Nat) i l = l := by
  induction l generalizing i with
  | nil => rfl
  | cons x xs ih => simp [removeIndicesGo_cons, ih]

theorem removeIndicesGo_range_past {α : Type} (a b : Nat) (l : List α) :
    ∀ i, a + b ≤ i → removeIndicesGo (List.range' a b) i l = l := by
  induction l with
  | nil => intro i _; rfl
  | cons x xs ih =>
    intro i h
    have hnot : i ∉ List.range' a b := by
      rw [List.mem_range'_1]
      omega
    rw [removeIndicesGo_cons, if_neg hnot, ih (i + 1) (by omega)]

theorem removeIndicesGo_range_inside {α : Type} (a b : Nat) (l : List α) :
    ∀ i, a ≤ i → i ≤ a + b → removeIndicesGo (List.range' a b) i l = l.drop (a + b - i) := by
  induction l with
  | nil => intro i _ _; simp [removeIndicesGo]
  | cons x xs ih =>
    intro i h1 h2
    rcases Nat.lt_or_ge i (a + b) with hlt | hge
    · have hmem : i ∈ List.range' a b := by
        rw [List.mem_range'_1]
        omega
      rw [removeIndicesGo_cons, if_pos hmem, ih (i + 1) (by omega) (by omega),
        show a + b - i = (a + b - (i + 1)) + 1 by omega, List.drop_succ_cons]
    · have hi : i = a + b := by omega
      subst hi
      have hnot : a + b ∉ List.range' a b := by
        rw [List.mem_range'_1]
        omega
      rw [removeIndicesGo_cons, if_neg hnot,
        removeIndicesGo_range_past a b xs (a + b + 1) (by omega)]
      simp

theorem removeIndicesGo_range_before {α : Type} (a b : Nat) (l : List α) :
    ∀ i, i ≤ a →
      removeIndicesGo (List.range' a b) i l = l.take (a - i) ++ l.drop (a - i + b) := by
  induction l with
  | nil => intro i _; simp [removeIndicesGo]
  | cons x xs ih =>
    intro i h
    rcases Nat.lt_or_ge i a with hlt | hge
    · have hnot : i ∉ List.range' a b := by
        rw [List.mem_range'_1]
        omega
      rw [removeIndicesGo_cons, if_neg hnot, ih (i + 1) (by omega),
        show a - i = (a - (i + 1)) + 1 by omega, List.take_succ_cons,
        show a - (i + 1) + 1 + b = (a - (i + 1) + b) + 1 by omega, List.drop_succ_cons,
        List.cons_append]
    · cases b with
      | zero =>
        rw [List.range'_zero, removeIndicesGo_nil_indices, show a - i = 0 by omega]
        simp
      | succ b' =>
        have hmem : i ∈ List.range' a (b' + 1) := by
          rw [List.mem_range'_1]
          omega
        rw [removeIndicesGo_cons, if_pos hmem,
          removeIndicesGo_range_inside a (b' + 1) xs (i + 1) (by omega) (by omega),
          show a - i = 0 by omega, List.take_zero, Nat.zero_add, List.drop_succ_cons,
          List.nil_append, show a + (b' + 1) - (i + 1) = b' by omega]

theorem take_succ_set {α : Type} (c : α) :
    ∀ (l : List α) (s : Nat), s < l.length → (l.set s c).take (s + 1) = l.take s ++ [c] := by
  intro l
  induction l with
  | nil => intro s h; simp at h
  | cons x xs ih =>
    intro s h
    cases s with
    | zero => simp
    | succ s' =>
      rw [show (x :: xs).set (s' + 1) c = x :: xs.set s' c from rfl, List.take_succ_cons,
        ih s' (by simpa using h), List.take_succ_cons, List.cons_append]

theorem drop_set_of_lt_local {α : Type} (c : α) :
    ∀ (l : List α) (s n : Nat), s < n → (l.set s c).drop n = l.drop n := by
  intro l
  induction l with
  | nil => intro s n _; simp
  | cons x xs ih =>
    intro s n h
    cases n with
    | zero => omega
    | succ n' =>
      cases s with
      | zero =>
        rw [show (x :: xs).set 0 c = c :: xs from rfl, List.drop_succ_cons, List.drop_succ_cons]
      | succ s' =>
        rw [show (x :: xs).set (s' + 1) c = x :: xs.set s' c from rfl,
          List.drop_succ_cons, List.drop_succ_cons, ih s' n' (by omega)]

/-- C3 amended: in `CollapseIdentifiers::parse`, when the inner parse has
a single `Word (separator Word)+` window `[s, e)` and its concatenated
source characters are in the dictionary, the window is replaced by a
single `Word` token spanning the run's characters — but, in addition, the
token at index `e`, the one immediately following the run, is removed as
well (the source removes indices `s + 1 ..= e`); every other token
outside the run appears unchanged.  When the candidate is not in the
dictionary, the token stream is returned untouched. -/
theorem C3_collapse_identifiers_amended (dict : List Char → Bool)
    (inner : List Char → List Token) (source : List Char)
    (tokens : List Token) (htok : inner source = tokens)
    (s e : Nat)
    (hm : findAllMatches wordOrNumberPattern tokens source = [⟨s, e⟩])
    (hs : s < e) (he : e ≤ tokens.length) :
    (dict (spanContent ⟨(tokens.getD s default).span.start,
          (tokens.getD (e - 1) default).span.stop⟩ source) = true →
      collapseIdentifiersParse dict inner source =
        tokens.take s ++
          Token.mk ⟨(tokens.getD s default).span.start,
              (tokens.getD (e - 1) default).span.stop⟩ (.word default) ::
            tokens.drop (e + 1)) ∧
    (dict (spanContent ⟨(tokens.getD s default).span.start,
          (tokens.getD (e - 1) default).span.stop⟩ source) = false →
      collapseIdentifiersParse dict inner source = tokens) := by
  simp only [collapseIdentifiersParse]
  rw [htok]
  constructor
  · intro hdict
    have hrep : collapseReplacements dict tokens source =
        [Replacement.mk s e
          (Token.mk ⟨(tokens.getD s default).span.start,
            (tokens.getD (e - 1) default).span.stop⟩ (.word default))
          (spanContent ⟨(tokens.getD s default).span.start,
            (tokens.getD (e - 1) default).span.stop⟩ source)] := by
      unfold collapseReplacements
      rw [hm]
      simp [hdict]
      simpa using hdict
    rw [hrep]
    simp only [List.map_cons, List.map_nil, List.flatten_cons, List.flatten_nil,
      List.append_nil, List.foldl_cons, List.foldl_nil]
    unfold remove_indices
    rw [removeIndicesGo_range_before (s + 1) (e - s) _ 0 (by omega),
      Nat.sub_zero, show s + 1 + (e - s) = e + 1 by omega,
      take_succ_set _ tokens s (by omega), drop_set_of_lt_local _ tokens s (e + 1) (by omega),
      List.append_assoc, List.singleton_append]
  · intro hdict
    have hrep : collapseReplacements dict tokens source = [] := by
      unfold collapseReplacements
      rw [hm]
      simp [hdict]
      simpa using hdict
    rw [hrep]
    simp only [List.map_nil, List.flatten_nil, List.foldl_nil]
    unfold remove_indices
    rw [removeIndicesGo_nil_indices]

/-- C3 counterexample: on the inner parse of
`"This is a separated_identifier, wow!"` with `separated_identifier` in
the dictionary, the single matching window is `[6, 9)` (tokens
`separated`·`_`·`identifier`), yet the comma token `[30, 31)` — outside
that window — does not appear in the output, refuting the claim that
every token outside the collapsed run appears unchanged.  (The
repository's own `one_collapse` test pins this behaviour: 13 tokens in,
10 out, where the claim implies 11.) -/
theorem C3_collapse_identifiers_counterexample :
    Token.mk ⟨30, 31⟩ (.punctuation ',') ∈ collapseExampleTokens ∧
    findAllMatches wordOrNumberPattern collapseExampleTokens collapseExampleSource =
      [⟨6, 9⟩] ∧
    Token.mk ⟨30, 31⟩ (.punctuation ',') ∉
      collapseIdentifiersParse identifierDict (fun _ => collapseExampleTokens)
        collapseExampleSource :=
  ⟨by decide, by decide, by decide⟩

/-- Witness for the amended C3 at the concrete collapse example: the run
`[6, 9)` collapses to one token spanning characters `[10, 30)` and the
following comma (index 9) is dropped. -/
theorem C3_collapse_identifiers_amended_witness :
    collapseIdentifiersParse identifierDict (fun _ => collapseExampleTokens)
        collapseExampleSource =
      collapseExampleTokens.take 6 ++
        Token.mk ⟨10, 30⟩ (.word default) :: collapseExampleTokens.drop 10 :=
  (C3_collapse_identifiers_amended identifierDict (fun _ => collapseExampleTokens)
    collapseExampleSource collapseExampleTokens rfl 6 9 (by decide) (by decide)
    (by decide)).1 (by decide)

/-- C4: UseGenitive lints the trigger words `there`/`they're` followed by
whitespace and an (adjective)* noun environment in a non-copular context,
emitting a lint whose span is the trigger word and whose suggestion
replaces it with `their`: on `"What are there big problems?"` it emits
exactly one lint, spanning `"there"` (characters `[9, 14)`), suggesting
`their`; on `"Were there cats at her house?"` the copular prelude `Were`
blocks the match and no lint is emitted. -/
theorem C4_use_genitive :
    UseGenitive.lint docBigProblems =
      [{ span := ⟨9, 14⟩, lint_kind := .miscellaneous,
         suggestions := [.replaceWith ['t', 'h', 'e', 'i', 'r']],
         message := "Use the genitive case.", priority := 31 }] ∧
    UseGenitive.lint docWereThereCats = [] := by
  constructor <;> decide

theorem replaceAll_length (repl : RegexMatch → List Char) :
    ∀ (ms : List RegexMatch) (s : List Char) (offset : Nat),
      fits s offset ms = true →
      (∀ m ∈ ms, (repl m).length = m.matched.length) →
      (replaceAll repl s offset ms).length = s.length := by
  intro ms
  induction ms with
  | nil => intro s offset _ _; rfl
  | cons m ms ih =>
    intro s offset hfit hlen
    rw [show fits s offset (m :: ms) =
        (decide (offset ≤ m.start) &&
          decide (m.start - offset + m.matched.length ≤ s.length) &&
          fits (s.drop (m.start - offset + m.matched.length))
            (m.start + m.matched.length) ms) from rfl,
      Bool.and_eq_true, Bool.and_eq_true] at hfit
    obtain ⟨⟨-, h2⟩, h3⟩ := hfit
    have h2' : m.start - offset + m.matched.length ≤ s.length := of_decide_eq_true h2
    rw [show replaceAll repl s offset (m :: ms) =
        s.take (m.start - offset) ++ repl m ++
          replaceAll repl (s.drop (m.start - offset + m.matched.length))
            (m.start + m.matched.length) ms from rfl,
      List.length_append, List.length_append,
      ih _ _ h3 (fun x hx => hlen x (List.mem_cons_of_mem _ hx)),
      hlen m (List.mem_cons_self _ _), List.length_take, List.length_drop]
    omega

theorem allAscii_byteLen : ∀ s : List Char, allAscii s = true → byteLen s = s.length := by
  intro s
  induction s with
  | nil => intro _; rfl
  | cons c cs ih =>
    intro h
    rw [allAscii, List.all_cons, Bool.and_eq_true] at h
    have hc : charUtf8Size c = 1 := by
      rw [charUtf8Size, if_pos (of_decide_eq_true h.1)]
    have hcs : byteLen cs = cs.length := ih h.2
    rw [byteLen, List.map_cons, List.sum_cons, hc, List.length_cons]
    rw [byteLen] at hcs
    omega

theorem allAscii_utf16Len : ∀ s : List Char, allAscii s = true → utf16Len s = s.length := by
  intro s
  induction s with
  | nil => intro _; rfl
  | cons c cs ih =>
    intro h
    rw [allAscii, List.all_cons, Bool.and_eq_true] at h
    have hc : charUtf16Size c = 1 := by
      rw [charUtf16Size, if_pos (by have := of_decide_eq_true h.1; omega)]
    have hcs : utf16Len cs = cs.length := ih h.2
    rw [utf16Len, List.map_cons, List.sum_cons, hc, List.length_cons]
    rw [utf16Len] at hcs
    omega

theorem imageTagRepl_length (m : RegexMatch) (ha : allAscii m.matched = true)
    (hc : allAscii m.cap = true) (hs : m.cap.length + 2 ≤ m.matched.length) :
    (imageTagRepl m).length = m.matched.length := by
  rw [imageTagRepl, List.length_append, List.length_append, spaces, spaces,
    List.length_replicate, List.length_replicate, allAscii_byteLen _ ha,
    allAscii_byteLen _ hc]
  omega

theorem linkTagRepl_length (m : RegexMatch) (ha : allAscii m.matched = true)
    (hc : allAscii m.cap = true) (hs : m.cap.length + 1 ≤ m.matched.length) :
    (linkTagRepl m).length = m.matched.length := by
  rw [linkTagRepl, List.length_append, List.length_append, spaces, spaces,
    List.length_replicate, List.length_replicate, allAscii_byteLen _ ha,
    allAscii_byteLen _ hc]
  omega

theorem spacesByteLen_length (m : RegexMatch) (ha : allAscii m.matched = true) :
    (spaces (byteLen m.matched)).length = m.matched.length := by
  rw [spaces, List.length_replicate, allAscii_byteLen _ ha]

theorem inlineCodeRepl_length (m : RegexMatch) (ha : allAscii m.matched = true) :
    (inlineCodeRepl m).length = m.matched.length := by
  rw [inlineCodeRepl]
  split
  · rw [spaces, List.length_replicate, allAscii_byteLen _ ha]
  · rfl

theorem emojiRepl_length (m : RegexMatch) (ha : allAscii m.matched = true) :
    (emojiRepl m).length = m.matched.length := by
  rw [emojiRepl, spaces, List.length_replicate, allAscii_utf16Len _ ha]

theorem attrRepl_length (a : RegexMatch) (ha : allAscii a.matched = true)
    (hc : allAscii a.cap = true) (hs : a.cap.length + 2 ≤ a.matched.length) :
    (attrRepl a).length = a.matched.length := by
  simp only [attrRepl, List.length_append, spaces, List.length_replicate, List.length_cons,
    allAscii_byteLen _ ha, allAscii_byteLen _ hc, List.length_singleton, List.length_nil]
  omega

theorem tagAttributes_length (m : RegexMatch) :
    (tagAttributes m).length = m.matched.length - (m.cap.length + 1) - 1 := by
  rw [tagAttributes, List.length_dropLast, List.length_drop]

theorem tagRepl_length (m : RegexMatch) (hc : allAscii m.cap = true)
    (hs : m.cap.length + 2 ≤ m.matched.length)
    (hsubs : oracleOK (tagAttributes m) m.subs 2) :
    (tagRepl m).length = m.matched.length := by
  have hinner : (replaceAll attrRepl (tagAttributes m) 0 m.subs).length =
      (tagAttributes m).length :=
    replaceAll_length attrRepl m.subs (tagAttributes m) 0 hsubs.1
      (fun a haMem => attrRepl_length a (hsubs.2 a haMem).1 (hsubs.2 a haMem).2.1
        (hsubs.2 a haMem).2.2)
  rw [tagRepl, List.length_append, List.length_append, spaces, spaces,
    List.length_replicate, List.length_replicate, hinner, tagAttributes_length,
    allAscii_byteLen _ hc]
  omega

theorem cleanStep1_length (s : List Char) (o : List RegexMatch) (h : oracleOK s o 2) :
    (cleanStep1 s o).length = s.length :=
  replaceAll_length imageTagRepl o s 0 h.1
    (fun m hm => imageTagRepl_length m (h.2 m hm).1 (h.2 m hm).2.1 (h.2 m hm).2.2)

theorem cleanStep2_length (s : List Char) (o : List RegexMatch) (h : oracleOK s o 1) :
    (cleanStep2 s o).length = s.length :=
  replaceAll_length linkTagRepl o s 0 h.1
    (fun m hm => linkTagRepl_length m (h.2 m hm).1 (h.2 m hm).2.1 (h.2 m hm).2.2)

theorem cleanStep3_length (s : List Char) (o : List RegexMatch) (h : oracleOK s o 0) :
    (cleanStep3 s o).length = s.length :=
  replaceAll_length codeBlockRepl o s 0 h.1
    (fun m hm => spacesByteLen_length m (h.2 m hm).1)

theorem cleanStep4_length (s : List Char) (o : List RegexMatch) (h : tagOracleOK s o) :
    (cleanStep4 s o).length = s.length :=
  replaceAll_length tagRepl o s 0 h.1.1
    (fun m hm => tagRepl_length m (h.1.2 m hm).2.1 (h.1.2 m hm).2.2 (h.2 m hm))

theorem cleanStep5_length (s : List Char) (o : List RegexMatch) (h : oracleOK s o 0) :
    (cleanStep5 s o).length = s.length :=
  replaceAll_length urlRepl o s 0 h.1
    (fun m hm => spacesByteLen_length m (h.2 m hm).1)

theorem cleanStep6_length (s : List Char) (o : List RegexMatch) (h : oracleOK s o 0) :
    (cleanStep6 s o).length = s.length :=
  replaceAll_length emailRepl o s 0 h.1
    (fun m hm => spacesByteLen_length m (h.2 m hm).1)

theorem cleanStep7_length (s : List Char) (o : List RegexMatch) (h : oracleOK s o 0) :
    (cleanStep7 s o).length = s.length :=
  replaceAll_length inlineCodeRepl o s 0 h.1
    (fun m hm => inlineCodeRepl_length m (h.2 m hm).1)

theorem cleanStep8_length (s : List Char) (o : List RegexMatch) (h : oracleOK s o 0) :
    (cleanStep8 s o).length = s.length :=
  replaceAll_length emojiRepl o s 0 h.1
    (fun m hm => emojiRepl_length m (h.2 m hm).1)

theorem cleanStep9_length (s : List Char) (o : List RegexMatch) (h : oracleOK s o 0) :
    (cleanStep9 s o).length = s.length :=
  replaceAll_length dashRepl o s 0 h.1
    (fun m hm => spacesByteLen_length m (h.2 m hm).1)

/-- C1 amended: `clean_mdx_content` preserves the character count
whenever every match any pass replaces (and its capture) consists of
ASCII characters — in particular on every all-ASCII input, since every
match of a pass is a substring of that pass's (still ASCII) intermediate
string.  The oracle hypotheses say each pass's match set is valid for its
intermediate string and shaped as its regex forces.  The unamended claim
(all inputs) is false: see the counterexample, where a non-BMP emoji is
replaced by two spaces. -/
theorem C1_clean_mdx_ascii_length (mdx : List Char)
    (o1 o2 o3 o4 o5 o6 o7 o8 o9 : List RegexMatch)
    (h1 : oracleOK mdx o1 2)
    (h2 : oracleOK (cleanStep1 mdx o1) o2 1)
    (h3 : oracleOK (cleanStep2 (cleanStep1 mdx o1) o2) o3 0)
    (h4 : tagOracleOK (cleanStep3 (cleanStep2 (cleanStep1 mdx o1) o2) o3) o4)
    (h5 : oracleOK (cleanStep4 (cleanStep3 (cleanStep2 (cleanStep1 mdx o1) o2) o3) o4)
      o5 0)
    (h6 : oracleOK (cleanStep5 (cleanStep4 (cleanStep3 (cleanStep2 (cleanStep1 mdx o1)
      o2) o3) o4) o5) o6 0)
    (h7 : oracleOK (cleanStep6 (cleanStep5 (cleanStep4 (cleanStep3 (cleanStep2
      (cleanStep1 mdx o1) o2) o3) o4) o5) o6) o7 0)
    (h8 : oracleOK (cleanStep7 (cleanStep6 (cleanStep5 (cleanStep4 (cleanStep3
      (cleanStep2 (cleanStep1 mdx o1) o2) o3) o4) o5) o6) o7) o8 0)
    (h9 : oracleOK (cleanStep8 (cleanStep7 (cleanStep6 (cleanStep5 (cleanStep4
      (cleanStep3 (cleanStep2 (cleanStep1 mdx o1) o2) o3) o4) o5) o6) o7) o8) o9 0) :
    (clean_mdx_content mdx o1 o2 o3 o4 o5 o6 o7 o8 o9).length = mdx.length := by
  rw [clean_mdx_content, cleanStep9_length _ _ h9, cleanStep8_length _ _ h8,
    cleanStep7_length _ _ h7, cleanStep6_length _ _ h6, cleanStep5_length _ _ h5,
    cleanStep4_length _ _ h4, cleanStep3_length _ _ h3, cleanStep2_length _ _ h2,
    cleanStep1_length _ _ h1]

/-- C1 counterexample: `'😀'` (U+1F600) has the `Emoji` property and is
matched by no other pass of `clean_mdx_content`; step 8 replaces it by
`encode_utf16().count() = 2` spaces, so the one-code-point input yields a
two-character output — the character count is not preserved. -/
theorem C1_clean_mdx_counterexample :
    (clean_mdx_content ['😀'] [] [] [] [] [] [] []
        [RegexMatch.mk 0 ['😀'] [] []] []).length ≠
      (['😀'] : List Char).length := by
  decide

/-- Witness for the amended C1 on the concrete ASCII input
`"![ab](cd) #"`: the image pass blanks the image tag (keeping the alt
text) and the emoji pass blanks the `'#'` (an ASCII character with the
`Emoji` property); the character count is preserved. -/
theorem C1_clean_mdx_ascii_length_witness :
    (clean_mdx_content (String.toList "![ab](cd) #")
        [RegexMatch.mk 0 (String.toList "![ab](cd)") (String.toList "ab") []]
        [] [] [] [] [] []
        [RegexMatch.mk 10 ['#'] [] []] []).length =
      (String.toList "![ab](cd) #").length :=
  C1_clean_mdx_ascii_length _ _ _ _ _ _ _ _ _ _ (by decide) (by decide) (by decide)
    (by decide) (by decide) (by decide) (by decide) (by decide) (by decide)

/-- C2 counterexample: the span `[5, 6)` lies outside the two-character
buffer `"ab"`, yet `apply_suggestion` returns `Ok` (with the text
unchanged) rather than failing with a domain error — the wasm wrapper's
only exit is `Ok(source.iter().collect())`. -/
theorem C2_apply_suggestion_counterexample :
    (String.toList "ab").length < 5 ∧
    apply_suggestion (String.toList "ab") ⟨5, 6⟩ (.replaceWith ['x']) =
      Except.ok (String.toList "ab") :=
  ⟨by decide, rfl⟩

/-- C2 amended: when `apply_suggestion` is called with a span lying
outside the text buffer, the buffer is not mutated and no partially
edited text is returned — but the call does not fail with a domain
error: it returns the input text unchanged, wrapped in `Ok`. -/
theorem C2_apply_suggestion_amended (text : List Char) (span : Span)
    (suggestion : Suggestion) (h : text.length < span.stop) :
    apply_suggestion text span suggestion = Except.ok text := by
  simp only [apply_suggestion, Suggestion.apply]
  rw [if_neg]
  rintro ⟨h1, -⟩
  omega

/-- Witness for the amended C2 at the concrete out-of-range call. -/
theorem C2_apply_suggestion_amended_witness :
    apply_suggestion (String.toList "ab") ⟨5, 6⟩ Suggestion.remove =
      Except.ok (String.toList "ab") :=
  C2_apply_suggestion_amended (String.toList "ab") ⟨5, 6⟩ Suggestion.remove (by decide)

/-- C8: `LintGroup::lint` applies the defaults to a local clone of the
configuration on every call and never writes the stored configuration:
for every group (whatever the individual linters do and however their
states evolve) and every document, the `config` field after the call is
exactly the one from before the call, `None` entries included. -/
theorem C8_lint_group_config_frame (g : LintGroup) (document : Document) :
    ((g.lint document).2).config = g.config := rfl

/-- C10: a `LintGroup` whose config is `LintGroupConfig::none()` returns
an empty lint vector on every document, whatever the individual linters
would report: `none()` sets every flag (and `spell_check`) to
`Some(false)`, `fill_default_values` leaves `Some` values unchanged, so
no linter contributes. -/
theorem C10_lint_group_none_config (g : LintGroup) (document : Document)
    (h : g.config = LintGroupConfig.none) :
    (g.lint document).1 = [] := by
  simp [LintGroup.lint, h, LintGroupConfig.none, LintGroupConfig.fill_default_values, runIf]

/-- Witness for C10: the all-noisy group with the `none()` config lints
nothing. -/
theorem C10_lint_group_none_config_witness :
    (noneConfigGroup.lint ⟨[], []⟩).1 = [] :=
  C10_lint_group_none_config noneConfigGroup ⟨[], []⟩ rfl

end Harper
